import Mathlib

/-!
Shallow embedding of the measurement/axes core of the abTEM repository
(src/abtem/measure/measure.py and src/abtem/core/axes.py), together with
theorems settling the frozen claims about it.  Machine floats are modelled
by exact rationals; numpy/dask arrays by shapes plus index functions; the
Python error taxonomy by small inductive error types carrying the names the
specification assigns to the RuntimeErrors of the source.
-/

namespace Abtem

/-- Dictionary-valued axis-metadata entry as used throughout measure.py, for
example the entries built by Images.base_axes_metadata (lines 200-202). -/
structure AxDict where
  label : String
  axtype : String
  sampling : ℚ
deriving DecidableEq

/-- Free-form metadata slot of a measurement.  In the Python source this is a
dynamically typed attribute: normally None or a dict of scalars, but
DiffractionPatterns.copy (line 549) and PolarMeasurements.copy (line 895)
assign the axes-metadata list to it, so the model carries that case too. -/
inductive MetaVal where
  | none
  | dict (kvs : List (String × ℚ))
  | axesList (xs : List AxDict)
deriving DecidableEq

/-- Python exception raised when a call omits required positional arguments. -/
inductive PyErr where
  | TypeError
deriving DecidableEq

/-- Error-taxonomy name (spec section 7) for the failure the claim expects
from Images.subtract on incompatible operands. -/
inductive MeasErr where
  | IncompatibleMeasurementError
deriving DecidableEq

/-- Error-taxonomy name for the RuntimeError raised by
AbstractMeasurement._reduction when a base axis is reduced (line 106). -/
inductive RErr where
  | ReduceOnBaseAxisError
deriving DecidableEq

/-- Errors reachable from polar_binning: the _check_max_angle guard (spec
name AngleOutOfRangeError) and the Python ZeroDivisionError that a zero bin
count would produce in the sampling divisions. -/
inductive GuardErr where
  | AngleOutOfRangeError
  | ZeroDivisionError
deriving DecidableEq

/-- Errors raised by axis concatenation and indexing in core/axes.py: the
RuntimeError of concatenate (spec name IncompatibleAxisError) and the Python
IndexError of an out-of-range value selection. -/
inductive AxisErr where
  | IncompatibleAxisError
  | IndexError
deriving DecidableEq

/-- Python int() applied to an exact rational: truncation toward zero,
written as the floor for nonnegative arguments and the negated floor of the
negation otherwise. -/
def pyInt (q : ℚ) : ℤ :=
  if q < 0 then -Int.floor (-q) else Int.floor q

/-- numpy.linspace with endpoint true, evaluated at sample index i out of n. -/
def linspace (a b : ℚ) (n : ℕ) (i : ℕ) : ℚ :=
  if n ≤ 1 then a else a + (i : ℚ) * (b - a) / ((n : ℚ) - 1)

/-- Drop the entries whose position occurs in axes: the numpy semantics of
removing the collapsed dimensions, reused for axis-metadata removal. -/
def removeIdxs {α : Type} (l : List α) (axes : List ℕ) : List α :=
  (l.enum.filter (fun p => !(axes.contains p.1))).map Prod.snd

/-- All multi-indices of an array of the given shape, in row-major order. -/
def allIndices : List ℕ → List (List ℕ)
  | [] => [[]]
  | n :: rest => (List.range n).flatMap (fun i => (allIndices rest).map (fun idx => i :: idx))

/-! ## Axis metadata hierarchy (src/abtem/core/axes.py) -/

/-- Concrete subclasses of OrdinalAxis in core/axes.py. -/
inductive OrdTag where
  | nonLinearAxis
  | tiltAxis
  | thicknessAxis
  | parameterSeriesAxis
  | positionsAxis
  | frozenPhononsAxis
  | prismPlaneWavesAxis
deriving DecidableEq

/-- OrdinalAxis (core/axes.py lines 85-126) and its concrete subclasses,
flattened: tag records the concrete class and the union of all dataclass
fields is carried (a field a given subclass does not declare sits at its
default, so it is equal on any two instances of that subclass, and
dataclasses.asdict followed by self.__class__(**kwargs) round-trips exactly
these fields).  concatenate_flag is the _concatenate dataclass field. -/
structure OrdinalAxis (α : Type) where
  tag : OrdTag
  concatenate_flag : Bool
  label : String
  values : List α
  units : String
  direction : String
  ensemble_mean : Bool
deriving DecidableEq

/-- Modelled from the spec: safe_equality with an excluded-fields argument
lives in abtem/core/utils.py, which is not under src.  Per spec section 3,
concatenate combines two axes of the same concrete variant and requires
equality of all fields except values, so this compares the concrete class
tag and every dataclass field other than values. -/
def safeEqualityExceptValues {α : Type} (a b : OrdinalAxis α) : Bool :=
  a.tag == b.tag && a.concatenate_flag == b.concatenate_flag && a.label == b.label &&
    a.units == b.units && a.direction == b.direction && a.ensemble_mean == b.ensemble_mean

/-- OrdinalAxis.concatenate (core/axes.py lines 91-98): on safe equality
excluding values, rebuild the same class from asdict with the values tuples
appended; otherwise raise (RuntimeError in the source, IncompatibleAxisError
in the taxonomy of the spec). -/
def OrdinalAxis.concatenate {α : Type} (a b : OrdinalAxis α) : Except AxisErr (OrdinalAxis α) :=
  if safeEqualityExceptValues a b then
    Except.ok { a with values := a.values ++ b.values }
  else
    Except.error AxisErr.IncompatibleAxisError

/-- Selector for OrdinalAxis.__getitem__: a scalar index, or a non-scalar
selection (slice, index list, boolean mask) reduced to the list of selected
positions of the intermediate object array. -/
inductive Selector where
  | scalar (i : ℕ)
  | multi (idxs : List ℕ)

/-- OrdinalAxis.__getitem__ (core/axes.py lines 116-126): rebuilds the same
class from asdict with values narrowed to the selection; a scalar selector
keeps only that value as a singleton tuple; an out-of-range position raises
the Python IndexError. -/
def OrdinalAxis.getitem {α : Type} (a : OrdinalAxis α) (s : Selector) :
    Except AxisErr (OrdinalAxis α) :=
  match s with
  | Selector.scalar i =>
      match a.values.get? i with
      | some v => Except.ok { a with values := [v] }
      | none => Except.error AxisErr.IndexError
  | Selector.multi idxs =>
      if idxs.all (fun i => decide (i < a.values.length)) then
        Except.ok { a with values := idxs.filterMap (fun i => a.values.get? i) }
      else
        Except.error AxisErr.IndexError

/-! ## Generic measurement abstraction (measure.py, AbstractMeasurement) -/

/-- AbstractMeasurement (measure.py lines 30-112): the lazily evaluated
array is modelled as a shape plus an index function; axes_metadata is the
_axes_metadata ensemble list and base_axes_neg the (possibly negative)
base-axis positions handed to the constructor.  Fields only touched by the
subclass copy (free-form metadata, sampling, ...) live on the concrete
subclass models below; _reduction overwrites exactly _array and
_axes_metadata of its copy, which is what this model captures. -/
structure AbstractMeasurement where
  shape : List ℕ
  data : List ℕ → ℚ
  axes_metadata : List AxDict
  base_axes_neg : List ℤ

/-- dimensions property: rank of the array. -/
def AbstractMeasurement.dims (m : AbstractMeasurement) : ℕ := m.shape.length

/-- base_axes property (lines 69-77): negative entries of _base_axes are
offset by the number of dimensions. -/
def AbstractMeasurement.base_axes (m : AbstractMeasurement) : List ℤ :=
  m.base_axes_neg.map (fun b => if b < 0 then (m.dims : ℤ) + b else b)

/-- collection_dimensions property (lines 65-67). -/
def AbstractMeasurement.collection_dimensions (m : AbstractMeasurement) : ℕ :=
  m.dims - m.base_axes_neg.length

/-- collection_axes property (lines 79-81): leading ensemble dimension
indices. -/
def AbstractMeasurement.collection_axes (m : AbstractMeasurement) : List ℕ :=
  List.range m.collection_dimensions

/-- _check_is_base_axes (lines 88-90): the requested axes meet base_axes. -/
def AbstractMeasurement.check_is_base_axes (m : AbstractMeasurement) (axes : List ℕ) : Bool :=
  axes.any (fun a => decide ((a : ℤ) ∈ m.base_axes))

/-- Modelled from the spec: _remove_axes_metadata comes from the
HasAxesMetadata mixin (abtem/basic/axes.py), which is not under src.  Per
spec section 4.3 the reduction removes the reduced axes from the ensemble
axis metadata, that is, it drops the entries at the reduced positions. -/
def AbstractMeasurement.remove_axes_metadata (m : AbstractMeasurement) (axes : List ℕ) :
    List AxDict :=
  removeIdxs m.axes_metadata axes

/-- dask.array.mean over the given axes, at one output index: the average of
the input entries whose multi-index restricts to that output index. -/
def daMeanData (shape : List ℕ) (data : List ℕ → ℚ) (axes : List ℕ) : List ℕ → ℚ :=
  fun idx =>
    let sel := (allIndices shape).filter (fun i => removeIdxs i axes == idx)
    (sel.map data).sum / (sel.length : ℚ)

/-- AbstractMeasurement._reduction (measure.py lines 101-112): default axes
are the collection (ensemble) axes; reducing a base axis raises
(RuntimeError in the source, ReduceOnBaseAxisError in the spec taxonomy);
otherwise the array is collapsed by the supplied statistic and the reduced
positions leave the ensemble axis metadata of a view copy. -/
def AbstractMeasurement.reduction
    (statData : List ℕ → (List ℕ → ℚ) → List ℕ → (List ℕ → ℚ))
    (m : AbstractMeasurement) (axesOpt : Option (List ℕ)) :
    Except RErr AbstractMeasurement :=
  let axes := axesOpt.getD m.collection_axes
  if m.check_is_base_axes axes then
    Except.error RErr.ReduceOnBaseAxisError
  else
    Except.ok { shape := removeIdxs m.shape axes,
                data := statData m.shape m.data axes,
                axes_metadata := m.remove_axes_metadata axes,
                base_axes_neg := m.base_axes_neg }

/-- AbstractMeasurement.mean (lines 92-93): _reduction with da.mean. -/
def AbstractMeasurement.mean (m : AbstractMeasurement) (axesOpt : Option (List ℕ)) :
    Except RErr AbstractMeasurement :=
  AbstractMeasurement.reduction daMeanData m axesOpt

/-- AbstractMeasurement.sum exactly as written in measure.py lines 95-96: it
passes da.mean, not da.sum, to _reduction. -/
def AbstractMeasurement.sum (m : AbstractMeasurement) (axesOpt : Option (List ℕ)) :
    Except RErr AbstractMeasurement :=
  AbstractMeasurement.reduction daMeanData m axesOpt

/-! ## Images (measure.py lines 193-428) -/

/-- Images: two real-space base axes (constructor base_axes (-2,-1)), a
sampling pair, the ensemble axis metadata list and the dynamically typed
free-form metadata. -/
structure Images where
  shape : List ℕ
  data : List ℕ → ℚ
  sampling : ℚ × ℚ
  axes_metadata : List AxDict
  metadata : MetaVal

/-- Images.base_axes_metadata (lines 199-202). -/
def Images.base_axes_metadata (im : Images) : List AxDict :=
  [⟨"x", "real-space", im.sampling.1⟩, ⟨"y", "real-space", im.sampling.2⟩]

/-- The axes_metadata property of AbstractMeasurement (lines 49-51):
ensemble metadata followed by base metadata. -/
def Images.full_axes_metadata (im : Images) : List AxDict :=
  im.axes_metadata ++ im.base_axes_metadata

/-- Images.is_compatible (lines 366-377), faithfully including the source
line 371, which compares self.sampling with itself. -/
def Images.is_compatible (a b : Images) : Bool :=
  if a.shape ≠ b.shape then false
  else if a.sampling ≠ a.sampling then false
  else if a.full_axes_metadata ≠ b.full_axes_metadata then false
  else true

/-- Images.subtract (lines 379-384): the is_compatible result is computed
and discarded, so the elementwise difference is always returned; the new
instance receives the combined axes_metadata property as its ensemble list
and a copy of the metadata. -/
def Images.subtract (a b : Images) : Except MeasErr Images :=
  let _ := Images.is_compatible a b
  Except.ok { shape := a.shape,
              data := fun i => a.data i - b.data i,
              sampling := a.sampling,
              axes_metadata := a.full_axes_metadata,
              metadata := a.metadata }

/-- Images.copy (lines 218-223): the constructor call passes the combined
axes_metadata property as the new ensemble metadata and omits the metadata
keyword, so the copy's free-form metadata is the constructor default None;
with copy_array false the array is aliased, which in this value model is the
same index function. -/
def Images.copy (im : Images) (_copyArray : Bool) : Images :=
  { shape := im.shape,
    data := im.data,
    sampling := im.sampling,
    axes_metadata := im.full_axes_metadata,
    metadata := MetaVal.none }

/-! ## DiffractionPatterns (measure.py lines 507-811) -/

/-- DiffractionPatterns: only the two Fourier-space base dimensions are
carried (sizes n0, n1 and an index function); ensemble dimensions broadcast
unchanged through every per-pixel operation modelled here. -/
structure DiffractionPatterns where
  n0 : ℕ
  n1 : ℕ
  data : ℕ → ℕ → ℚ
  angular_sampling : ℚ × ℚ
  fftshift : Bool
  axes_metadata : List AxDict
  metadata : MetaVal

/-- DiffractionPatterns.base_axes_metadata (lines 520-523); both labels are
the string x in the source. -/
def DiffractionPatterns.base_axes_metadata (dp : DiffractionPatterns) : List AxDict :=
  [⟨"x", "fourier_space", dp.angular_sampling.1⟩, ⟨"x", "fourier_space", dp.angular_sampling.2⟩]

/-- The axes_metadata property: ensemble metadata followed by base metadata. -/
def DiffractionPatterns.full_axes_metadata (dp : DiffractionPatterns) : List AxDict :=
  dp.axes_metadata ++ dp.base_axes_metadata

/-- DiffractionPatterns.copy (lines 541-550): the metadata keyword receives
a deep copy of the axes_metadata property, and that combined property list
is also passed as the new ensemble metadata. -/
def DiffractionPatterns.copy (dp : DiffractionPatterns) (_copyArray : Bool) :
    DiffractionPatterns :=
  { dp with axes_metadata := dp.full_axes_metadata,
            metadata := MetaVal.axesList dp.full_axes_metadata }

/-- max_angles property (lines 563-565): shape // 2 times the sampling. -/
def DiffractionPatterns.max_angles (dp : DiffractionPatterns) : ℚ × ℚ :=
  (((dp.n0 / 2 : ℕ) : ℚ) * dp.angular_sampling.1, ((dp.n1 / 2 : ℕ) : ℚ) * dp.angular_sampling.2)

/-- _check_max_angle (lines 637-639). -/
def DiffractionPatterns.check_max_angle (dp : DiffractionPatterns) (angle : ℚ) :
    Option GuardErr :=
  if angle > dp.max_angles.1 ∨ angle > dp.max_angles.2 then some GuardErr.AngleOutOfRangeError
  else none

/-- One limit pair of fourier_space_extent (lines 567-577), for a dimension
of size n with sampling d; Python floor division is Int.fdiv. -/
def fourierSpaceExtent1 (n : ℕ) (d : ℚ) : ℚ × ℚ :=
  if n % 2 = 1 then
    (((Int.fdiv (-((n : ℤ) - 1)) 2 : ℤ) : ℚ) * d, ((Int.fdiv ((n : ℤ) - 1) 2 : ℤ) : ℚ) * d)
  else
    (((Int.fdiv (-(n : ℤ)) 2 : ℤ) : ℚ) * d, ((Int.fdiv (n : ℤ) 2 - 1 : ℤ) : ℚ) * d)

/-- fourier_space_extent property: the pair of limit pairs for the two base
dimensions. -/
def DiffractionPatterns.fourier_space_extent (dp : DiffractionPatterns) : List (ℚ × ℚ) :=
  [fourierSpaceExtent1 dp.n0 dp.angular_sampling.1,
   fourierSpaceExtent1 dp.n1 dp.angular_sampling.2]

/-- angular_coordinates, first axis (lines 773-776): linspace over the
Fourier-space extent. -/
def DiffractionPatterns.alpha_x (dp : DiffractionPatterns) (i : ℕ) : ℚ :=
  linspace (fourierSpaceExtent1 dp.n0 dp.angular_sampling.1).1
    (fourierSpaceExtent1 dp.n0 dp.angular_sampling.1).2 dp.n0 i

/-- angular_coordinates, second axis (lines 773-776). -/
def DiffractionPatterns.alpha_y (dp : DiffractionPatterns) (j : ℕ) : ℚ :=
  linspace (fourierSpaceExtent1 dp.n1 dp.angular_sampling.2).1
    (fourierSpaceExtent1 dp.n1 dp.angular_sampling.2).2 dp.n1 j

/-- block_direct (lines 778-795): the default radius is 1.1 times the
maximum angular sampling; a pixel survives exactly when its squared angular
distance exceeds the squared radius (the source multiplies the array by the
boolean mask alpha greater than radius squared), and the new instance gets
the combined axes_metadata property with metadata preserved. -/
def DiffractionPatterns.block_direct (dp : DiffractionPatterns) (radiusOpt : Option ℚ) :
    DiffractionPatterns :=
  let radius := radiusOpt.getD (max dp.angular_sampling.1 dp.angular_sampling.2 * (11 / 10))
  { dp with
      axes_metadata := dp.full_axes_metadata,
      data := fun i j =>
        if dp.alpha_x i ^ 2 + dp.alpha_y j ^ 2 > radius ^ 2 then dp.data i j else 0 }

/-- Parameters of the PolarMeasurements built by polar_binning (lines
683-694).  The binned array itself is produced by polar_detector_bins and
sum_run_length_encoded from abtem/measure/utils.py, which is not among the
sources under study; azimuthal_sampling equals 2 pi / nbins_azimuthal, an
irrational value recorded here through nbins_azimuthal. -/
structure PolarBinParams where
  nbins_radial : ℤ
  nbins_azimuthal : ℤ
  radial_sampling : ℚ
  radial_offset : ℚ
  azimuthal_offset : ℚ
deriving DecidableEq

/-- polar_binning (lines 641-694) up to the construction of the result
parameters: the _check_max_angle guard runs first; the two sampling
divisions would raise the Python ZeroDivisionError on a zero bin count. -/
def DiffractionPatterns.polar_binning (dp : DiffractionPatterns)
    (nr na : ℤ) (inner outer rotation : ℚ) : Except GuardErr PolarBinParams :=
  match dp.check_max_angle outer with
  | some e => Except.error e
  | none =>
      if nr = 0 ∨ na = 0 then Except.error GuardErr.ZeroDivisionError
      else Except.ok { nbins_radial := nr,
                       nbins_azimuthal := na,
                       radial_sampling := (outer - inner) / (nr : ℚ),
                       radial_offset := inner,
                       azimuthal_offset := rotation }

/-- radial_binning (lines 696-703): outer defaults to min(max_angles);
nbins_radial = int((outer - inner) / step_size); one azimuthal bin. -/
def DiffractionPatterns.radial_binning (dp : DiffractionPatterns)
    (step inner : ℚ) (outerOpt : Option ℚ) : Except GuardErr PolarBinParams :=
  let outer := outerOpt.getD (min dp.max_angles.1 dp.max_angles.2)
  dp.polar_binning (pyInt ((outer - inner) / step)) 1 inner outer 0

/-! ## PolarMeasurements (measure.py lines 814-905) -/

/-- PolarMeasurements: radial times azimuthal base bins; only the base plane
is carried (scan and ensemble dimensions broadcast unchanged through the
slice summation of integrate). -/
structure PolarMeasurements where
  nRadial : ℕ
  nAzimuthal : ℕ
  data : ℕ → ℕ → ℚ
  radial_sampling : ℚ
  azimuthal_sampling : ℚ
  radial_offset : ℚ
  azimuthal_offset : ℚ
  axes_metadata : List AxDict
  metadata : MetaVal

/-- inner_angle property (lines 837-838). -/
def PolarMeasurements.inner_angle (p : PolarMeasurements) : ℚ := p.radial_offset

/-- Sum of the bin block with radial indices in [r0, r1) and azimuthal
indices in [a0, a1): the slice-and-sum step of integrate, restricted to the
nonnegative in-range slice bounds exercised here (numpy slicing clips at the
array ends, which the range filter reproduces). -/
def PolarMeasurements.sliceSum (p : PolarMeasurements) (r0 r1 a0 a1 : ℕ) : ℚ :=
  (((List.range p.nRadial).filter (fun r => decide (r0 ≤ r ∧ r < r1))).map (fun r =>
    (((List.range p.nAzimuthal).filter (fun a => decide (a0 ≤ a ∧ a < a1))).map
      (fun a => p.data r a)).sum)).sum

/-- PolarMeasurements.integrate (lines 863-887) with detector_regions not
given: the radial limits are shifted by inner_angle and divided by
radial_sampling; the azimuthal limits are divided by radial_sampling as
well, with no offset subtraction, exactly as the source lines 881-882 do;
the selected 2-D slice of bins is then summed. -/
def PolarMeasurements.integrate (p : PolarMeasurements)
    (radialLimits azimutalLimits : Option (ℚ × ℚ)) : ℚ :=
  let rIdx : ℕ × ℕ :=
    match radialLimits with
    | none => (0, p.nRadial)
    | some lim => ((pyInt ((lim.1 - p.inner_angle) / p.radial_sampling)).toNat,
                   (pyInt ((lim.2 - p.inner_angle) / p.radial_sampling)).toNat)
  let aIdx : ℕ × ℕ :=
    match azimutalLimits with
    | none => (0, p.nAzimuthal)
    | some lim => ((pyInt (lim.1 / p.radial_sampling)).toNat,
                   (pyInt (lim.2 / p.radial_sampling)).toNat)
  p.sliceSum rIdx.1 rIdx.2 aIdx.1 aIdx.2

/-- PolarMeasurements.copy (lines 889-895): the constructor call omits the
required positional parameters radial_sampling and azimuthal_sampling of
PolarMeasurements.__init__ (line 816), so every call raises the Python
TypeError before any new instance is built. -/
def PolarMeasurements.copy (_p : PolarMeasurements) (_copyArray : Bool) :
    Except PyErr PolarMeasurements :=
  Except.error PyErr.TypeError

/-! ## Concrete instances used by the claim theorems -/

/-- All-ones measurement of shape (2,2,2) with base axes (-2,-1): one
ensemble dimension of length 2. -/
def onesM : AbstractMeasurement :=
  { shape := [2, 2, 2], data := fun _ => 1,
    axes_metadata := [⟨"sample", "unknown", 1⟩], base_axes_neg := [-2, -1] }

/-- A measurement of shape (2,3,4), base axes (-2,-1), one ensemble axis. -/
def exM5 : AbstractMeasurement :=
  { shape := [2, 3, 4], data := fun idx => (idx.sum : ℚ),
    axes_metadata := [⟨"s", "unknown", 1⟩], base_axes_neg := [-2, -1] }

/-- A thickness axis with two values. -/
def axC : OrdinalAxis ℚ :=
  { tag := OrdTag.thicknessAxis, concatenate_flag := true, label := "thickness",
    values := [1, 2], units := "A", direction := "x", ensemble_mean := false }

/-- A thickness axis compatible with axC, holding one value. -/
def axD : OrdinalAxis ℚ :=
  { axC with values := [3] }

/-- A tilt axis with two values. -/
def axT : OrdinalAxis ℚ :=
  { tag := OrdTag.tiltAxis, concatenate_flag := true, label := "tilt",
    values := [5, 7], units := "mrad", direction := "x", ensemble_mean := false }

/-- A nowhere-zero 4 x 4 diffraction pattern with unit angular sampling. -/
def exDP7 : DiffractionPatterns :=
  { n0 := 4, n1 := 4, data := fun _ _ => 17, angular_sampling := (1, 1), fftshift := false,
    axes_metadata := [], metadata := MetaVal.none }

/-- A diffraction pattern with base shape (64, 63) and unit sampling. -/
def exDP8 : DiffractionPatterns :=
  { n0 := 64, n1 := 63, data := fun _ _ => 1, angular_sampling := (1, 1), fftshift := false,
    axes_metadata := [], metadata := MetaVal.none }

/-- A 1 x 1 image with sampling (1,1) and constant value 5. -/
def exImA : Images :=
  { shape := [1, 1], data := fun _ => 5, sampling := (1, 1), axes_metadata := [],
    metadata := MetaVal.none }

/-- A 1 x 1 image with sampling (2,2) and constant value 3: same shape as
exImA but different sampling, hence different axis metadata. -/
def exImB : Images :=
  { shape := [1, 1], data := fun _ => 3, sampling := (2, 2), axes_metadata := [],
    metadata := MetaVal.none }

/-- An image carrying a nonempty free-form metadata mapping. -/
def exI4 : Images :=
  { shape := [1, 1], data := fun _ => 5, sampling := (1, 1), axes_metadata := [],
    metadata := MetaVal.dict [("energy", 300)] }

/-- A diffraction pattern carrying a nonempty free-form metadata mapping. -/
def exD4 : DiffractionPatterns :=
  { n0 := 2, n1 := 2, data := fun _ _ => 1, angular_sampling := (1, 2), fftshift := false,
    axes_metadata := [], metadata := MetaVal.dict [("energy", 300)] }

/-- A polar measurement on which to call copy. -/
def exP4 : PolarMeasurements :=
  { nRadial := 1, nAzimuthal := 1, data := fun _ _ => 1, radial_sampling := 1,
    azimuthal_sampling := 1, radial_offset := 0, azimuthal_offset := 0,
    axes_metadata := [], metadata := MetaVal.none }

/-- A 4 x 4 polar measurement with radial sampling 2, azimuthal sampling
1/2, zero offsets, and pairwise distinct bin values 1..16. -/
def exPM2 : PolarMeasurements :=
  { nRadial := 4, nAzimuthal := 4, data := fun r a => 4 * (r : ℚ) + (a : ℚ) + 1,
    radial_sampling := 2, azimuthal_sampling := 1 / 2, radial_offset := 0,
    azimuthal_offset := 0, axes_metadata := [], metadata := MetaVal.none }

/-! ## Theorems -/

/-- The sum and mean reductions are literally the same function in the
source: both pass da.mean to _reduction (measure.py lines 92-96). -/
theorem sum_eq_mean (m : AbstractMeasurement) (axesOpt : Option (List ℕ)) :
    AbstractMeasurement.sum m axesOpt = AbstractMeasurement.mean m axesOpt := rfl

/-- C1: AbstractMeasurement.sum passes da.mean to _reduction (measure.py
lines 95-96), so on the all-ones measurement of shape (2,2,2) reducing the
ensemble axis 0 yields entries of value 1 and not the product 2 of the
reduced dimension lengths that the claim demands of a summation. -/
theorem c1_sum_collapses_by_mean :
    ∃ r, AbstractMeasurement.sum onesM (some [0]) = Except.ok r ∧
      r.data [0, 0] = 1 ∧ r.data [0, 0] ≠ 2 := by
  have hsel : (allIndices onesM.shape).filter (fun i => removeIdxs i [0] == [0, 0])
      = [[0, 0, 0], [1, 0, 0]] := by decide
  refine ⟨_, rfl, ?_, ?_⟩ <;>
    simp only [Option.getD_some, daMeanData, hsel] <;>
    norm_num [onesM, List.map_cons, List.map_nil, List.sum_cons, List.sum_nil]

/-- C2: PolarMeasurements.integrate converts the azimuthal limits by
dividing by radial_sampling with no offset subtraction (measure.py lines
881-882).  On the 4 x 4 polar measurement with radial sampling 2, azimuthal
sampling 1/2, zero offsets and bin values 1..16, azimuthal limits (1, 2)
make the code select bin columns [0, 1), summing to 28, while the claimed
conversion floor((limit - azimuthal_offset) / azimuthal_sampling) selects
columns [2, 4), which sum to 76. -/
theorem c2_integrate_divides_azimuthal_by_radial_sampling :
    PolarMeasurements.integrate exPM2 none (some (1, 2)) = 28 ∧
    (1 - exPM2.azimuthal_offset) / exPM2.azimuthal_sampling = 2 ∧
    (2 - exPM2.azimuthal_offset) / exPM2.azimuthal_sampling = 4 ∧
    PolarMeasurements.sliceSum exPM2 0 4 2 4 = 76 ∧
    PolarMeasurements.integrate exPM2 none (some (1, 2)) ≠
      PolarMeasurements.sliceSum exPM2 0 4 2 4 := by
  have h1 : (List.range 4).filter (fun r => decide (0 ≤ r ∧ r < 4)) = [0, 1, 2, 3] := by decide
  have h2 : (List.range 4).filter (fun a => decide (0 ≤ a ∧ a < 1)) = [0] := by decide
  have h3 : (List.range 4).filter (fun a => decide (2 ≤ a ∧ a < 4)) = [2, 3] := by decide
  have hs01 : PolarMeasurements.sliceSum exPM2 0 4 0 1 = 28 := by
    simp only [PolarMeasurements.sliceSum, exPM2, h1, h2, List.map_cons, List.map_nil,
      List.sum_cons, List.sum_nil]
    norm_num
  have hs24 : PolarMeasurements.sliceSum exPM2 0 4 2 4 = 76 := by
    simp only [PolarMeasurements.sliceSum, exPM2, h1, h3, List.map_cons, List.map_nil,
      List.sum_cons, List.sum_nil]
    norm_num
  have hr : PolarMeasurements.integrate exPM2 none (some (1, 2)) =
      PolarMeasurements.sliceSum exPM2 0 4 0 1 := by
    simp only [PolarMeasurements.integrate, PolarMeasurements.inner_angle]
    norm_num [pyInt, exPM2]
  refine ⟨hr.trans hs01, ?_, ?_, hs24, ?_⟩
  · norm_num [exPM2]
  · norm_num [exPM2]
  · rw [hr.trans hs01, hs24]; norm_num

/-- C3: Images.subtract (measure.py lines 379-384) discards the boolean
result of is_compatible and never raises, so it succeeds on two images
whose sampling, and hence axis metadata, differ. -/
theorem c3_subtract_ignores_compatibility :
    Images.is_compatible exImA exImB = false ∧
    ∃ r, Images.subtract exImA exImB = Except.ok r ∧ r.data [0, 0] = 2 := by
  refine ⟨by decide, ⟨_, rfl, ?_⟩⟩
  norm_num [exImA, exImB]

/-- C4: copy is broken in the source.  PolarMeasurements.copy omits the
required constructor arguments radial_sampling and azimuthal_sampling, so
every call raises TypeError (lines 889-895); DiffractionPatterns.copy
assigns a deep copy of the axes metadata to the free-form metadata slot
(line 549); Images.copy omits the metadata keyword, so the copy carries
None instead of the original mapping (lines 218-223). -/
theorem c4_copy_bugs :
    PolarMeasurements.copy exP4 true = Except.error PyErr.TypeError ∧
    (DiffractionPatterns.copy exD4 true).metadata = MetaVal.axesList exD4.full_axes_metadata ∧
    (DiffractionPatterns.copy exD4 true).metadata ≠ exD4.metadata ∧
    (Images.copy exI4 true).metadata = MetaVal.none ∧
    exI4.metadata ≠ MetaVal.none := by
  refine ⟨rfl, rfl, by decide, rfl, by decide⟩

/-- C5: mean with axes omitted defaults to the collection (ensemble) axes;
for a set of valid axes disjoint from the base axes it drops exactly those
positions from the ensemble axis metadata and from the shape, with the
array collapsed there by da.mean; an axis set meeting the base axes raises
ReduceOnBaseAxisError (measure.py lines 88-112). -/
theorem c5_mean_reduction (m : AbstractMeasurement) (A : List ℕ) :
    (AbstractMeasurement.mean m none = AbstractMeasurement.mean m (some m.collection_axes)) ∧
    (A.Nodup → (∀ a ∈ A, a < m.dims) → (∀ a ∈ A, ¬ ((a : ℤ) ∈ m.base_axes)) →
      AbstractMeasurement.mean m (some A) =
        Except.ok { shape := removeIdxs m.shape A,
                    data := daMeanData m.shape m.data A,
                    axes_metadata := removeIdxs m.axes_metadata A,
                    base_axes_neg := m.base_axes_neg }) ∧
    ((∃ a ∈ A, (a : ℤ) ∈ m.base_axes) →
      AbstractMeasurement.mean m (some A) = Except.error RErr.ReduceOnBaseAxisError) := by
  refine ⟨rfl, ?_, ?_⟩
  · intro _ _ hdisj
    have hc : m.check_is_base_axes A = false := by
      simp only [AbstractMeasurement.check_is_base_axes, List.any_eq_false]
      intro a ha
      simpa using hdisj a ha
    simp [AbstractMeasurement.mean, AbstractMeasurement.reduction, hc,
      AbstractMeasurement.remove_axes_metadata]
  · rintro ⟨a, ha, hmem⟩
    have hc : m.check_is_base_axes A = true := by
      simp only [AbstractMeasurement.check_is_base_axes, List.any_eq_true]
      exact ⟨a, ha, by simpa using hmem⟩
    simp [AbstractMeasurement.mean, AbstractMeasurement.reduction, hc]

/-- Witness for C5: reducing the ensemble axis 0 of the concrete
measurement of shape (2,3,4) with base axes (-2,-1). -/
theorem c5_mean_reduction_witness :
    AbstractMeasurement.mean exM5 (some [0]) =
      Except.ok { shape := removeIdxs exM5.shape [0],
                  data := daMeanData exM5.shape exM5.data [0],
                  axes_metadata := removeIdxs exM5.axes_metadata [0],
                  base_axes_neg := exM5.base_axes_neg } :=
  (c5_mean_reduction exM5 [0]).2.1 (by decide) (by decide) (by decide)

/-- C6: for OrdinalAxis operands of the same concrete subtype, concatenate
appends the values tuples and preserves every other field when all
non-values fields agree, so the result length is the sum of the operand
lengths; any differing non-values field raises IncompatibleAxisError
(core/axes.py lines 91-98). -/
theorem c6_ordinal_concatenate (a b : OrdinalAxis ℚ) (htag : a.tag = b.tag) :
    ((a.concatenate_flag = b.concatenate_flag ∧ a.label = b.label ∧ a.units = b.units ∧
      a.direction = b.direction ∧ a.ensemble_mean = b.ensemble_mean) →
      OrdinalAxis.concatenate a b = Except.ok { a with values := a.values ++ b.values } ∧
      (a.values ++ b.values).length = a.values.length + b.values.length) ∧
    (¬ (a.concatenate_flag = b.concatenate_flag ∧ a.label = b.label ∧ a.units = b.units ∧
        a.direction = b.direction ∧ a.ensemble_mean = b.ensemble_mean) →
      OrdinalAxis.concatenate a b = Except.error AxisErr.IncompatibleAxisError) := by
  have hiff : safeEqualityExceptValues a b = true ↔
      (a.concatenate_flag = b.concatenate_flag ∧ a.label = b.label ∧ a.units = b.units ∧
        a.direction = b.direction ∧ a.ensemble_mean = b.ensemble_mean) := by
    simp [safeEqualityExceptValues, htag, and_assoc]
  constructor
  · intro h
    refine ⟨?_, List.length_append _ _⟩
    simp [OrdinalAxis.concatenate, hiff.mpr h]
  · intro h
    have hf : safeEqualityExceptValues a b = false := by
      cases hsa : safeEqualityExceptValues a b
      · rfl
      · exact absurd (hiff.mp hsa) h
    simp [OrdinalAxis.concatenate, hf]

/-- Witness for C6: two thickness axes with equal non-values fields. -/
theorem c6_ordinal_concatenate_witness :
    OrdinalAxis.concatenate axC axD = Except.ok { axC with values := axC.values ++ axD.values } ∧
    (axC.values ++ axD.values).length = axC.values.length + axD.values.length :=
  (c6_ordinal_concatenate axC axD rfl).1 ⟨rfl, rfl, rfl, rfl, rfl⟩

/-- C7 counterexample: on the 4 x 4 all-17 pattern with unit angular
sampling, the pixel at index (2,3) has angular coordinates (0,1), hence
squared angular distance exactly 1 from the origin, which is not strictly
inside radius 1; the claim therefore demands that block_direct(radius=1)
leave its value 17 unchanged, yet the code sets it to 0 because the mask
keeps only squared distances strictly greater than the squared radius. -/
theorem c7_block_direct_counterexample :
    ¬ (DiffractionPatterns.alpha_x exDP7 2 ^ 2 + DiffractionPatterns.alpha_y exDP7 3 ^ 2
        < 1 ^ 2) ∧
    exDP7.data 2 3 = 17 ∧
    (DiffractionPatterns.block_direct exDP7 (some 1)).data 2 3 = 0 := by
  have hfd1 : Int.fdiv (-4) 2 = -2 := by decide
  have hfd2 : Int.fdiv 4 2 = 2 := by decide
  have hfe : fourierSpaceExtent1 4 (1 : ℚ) = (-2, 1) := by
    norm_num [fourierSpaceExtent1, hfd1, hfd2]
  have hx : DiffractionPatterns.alpha_x exDP7 2 = 0 := by
    norm_num [DiffractionPatterns.alpha_x, exDP7, hfe, linspace]
  have hy : DiffractionPatterns.alpha_y exDP7 3 = 1 := by
    norm_num [DiffractionPatterns.alpha_y, exDP7, hfe, linspace]
  refine ⟨by rw [hx, hy]; norm_num, rfl, ?_⟩
  show (if DiffractionPatterns.alpha_x exDP7 2 ^ 2 + DiffractionPatterns.alpha_y exDP7 3 ^ 2
      > (1 : ℚ) ^ 2 then exDP7.data 2 3 else 0) = 0
  rw [hx, hy]
  norm_num

/-- C7 amended: block_direct zeroes exactly the pixels whose squared
angular distance from the origin is at most the squared radius (so the
boundary at distance exactly r is zeroed too) and leaves every other pixel
unchanged; an omitted radius defaults to 1.1 times the maximum angular
sampling (measure.py lines 773-795). -/
theorem c7_block_direct_amended (dp : DiffractionPatterns) (r : ℚ) (i j : ℕ) :
    ((DiffractionPatterns.block_direct dp (some r)).data i j =
      if dp.alpha_x i ^ 2 + dp.alpha_y j ^ 2 ≤ r ^ 2 then 0 else dp.data i j) ∧
    DiffractionPatterns.block_direct dp none =
      DiffractionPatterns.block_direct dp
        (some (max dp.angular_sampling.1 dp.angular_sampling.2 * (11 / 10))) := by
  constructor
  · show (if dp.alpha_x i ^ 2 + dp.alpha_y j ^ 2 > r ^ 2 then dp.data i j else 0) = _
    by_cases h : dp.alpha_x i ^ 2 + dp.alpha_y j ^ 2 ≤ r ^ 2
    · rw [if_neg (not_lt.mpr h), if_pos h]
    · rw [if_pos (not_le.mp h), if_neg h]
  · rfl

/-- C8: fourier_space_extent yields, for a base dimension of size n with
sampling d, (-n/2*d, (n/2-1)*d) when n is even and (-(n-1)/2*d, (n-1)/2*d)
when n is odd; in particular base shape (64, 63) with unit sampling gives
the pairs (-32, 31) and (-31, 31) (measure.py lines 567-577). -/
theorem c8_fourier_space_extent :
    (∀ (n : ℕ) (d : ℚ), n % 2 = 0 →
      fourierSpaceExtent1 n d = (-((n : ℚ) / 2) * d, ((n : ℚ) / 2 - 1) * d)) ∧
    (∀ (n : ℕ) (d : ℚ), n % 2 = 1 →
      fourierSpaceExtent1 n d = (-(((n : ℚ) - 1) / 2) * d, (((n : ℚ) - 1) / 2) * d)) ∧
    DiffractionPatterns.fourier_space_extent exDP8 = [((-32 : ℚ), 31), ((-31 : ℚ), 31)] := by
  refine ⟨?_, ?_, ?_⟩
  · intro n d h
    obtain ⟨k, hk⟩ : ∃ k, n = 2 * k := ⟨n / 2, by omega⟩
    subst hk
    have hcast : ((2 * k : ℕ) : ℤ) = 2 * (k : ℤ) := by push_cast; ring
    have h1 : Int.fdiv (-((2 * k : ℕ) : ℤ)) 2 = -(k : ℤ) := by
      rw [hcast, ← mul_neg]
      exact Int.mul_fdiv_cancel_left _ (by norm_num)
    have h2 : Int.fdiv ((2 * k : ℕ) : ℤ) 2 = (k : ℤ) := by
      rw [hcast]
      exact Int.mul_fdiv_cancel_left _ (by norm_num)
    simp only [fourierSpaceExtent1, Nat.mul_mod_right]
    rw [if_neg (by omega)]
    rw [h1, h2, Prod.mk.injEq]
    constructor <;> push_cast <;> ring
  · intro n d h
    obtain ⟨k, hk⟩ : ∃ k, n = 2 * k + 1 := ⟨n / 2, by omega⟩
    subst hk
    have hcast : ((2 * k + 1 : ℕ) : ℤ) - 1 = 2 * (k : ℤ) := by push_cast; ring
    have h1 : Int.fdiv (-(((2 * k + 1 : ℕ) : ℤ) - 1)) 2 = -(k : ℤ) := by
      rw [hcast, ← mul_neg]
      exact Int.mul_fdiv_cancel_left _ (by norm_num)
    have h2 : Int.fdiv (((2 * k + 1 : ℕ) : ℤ) - 1) 2 = (k : ℤ) := by
      rw [hcast]
      exact Int.mul_fdiv_cancel_left _ (by norm_num)
    simp only [fourierSpaceExtent1]
    rw [if_pos (by omega)]
    rw [h1, h2, Prod.mk.injEq]
    constructor <;> push_cast <;> ring
  · show [fourierSpaceExtent1 64 1, fourierSpaceExtent1 63 1] = _
    have e1 : Int.fdiv (-64) 2 = -32 := by decide
    have e2 : Int.fdiv 64 2 = 32 := by decide
    have e3 : Int.fdiv (-62) 2 = -31 := by decide
    have e4 : Int.fdiv 62 2 = 31 := by decide
    norm_num [fourierSpaceExtent1, e1, e2, e3, e4]

/-- Witness for C8 at dimension size 4 with sampling 2. -/
theorem c8_fourier_space_extent_witness :
    fourierSpaceExtent1 4 (2 : ℚ) = (-((4 : ℚ) / 2) * 2, ((4 : ℚ) / 2 - 1) * 2) :=
  c8_fourier_space_extent.1 4 2 rfl

/-- C9: indexing and concatenation of an OrdinalAxis, whenever they
succeed, return an instance of the same concrete subclass with every field
other than values unchanged (core/axes.py lines 91-98 and 116-126). -/
theorem c9_ordinal_invariants (a : OrdinalAxis ℚ) :
    (∀ (s : Selector) (r : OrdinalAxis ℚ), OrdinalAxis.getitem a s = Except.ok r →
      r.tag = a.tag ∧ r.concatenate_flag = a.concatenate_flag ∧ r.label = a.label ∧
      r.units = a.units ∧ r.direction = a.direction ∧ r.ensemble_mean = a.ensemble_mean) ∧
    (∀ (b r : OrdinalAxis ℚ), OrdinalAxis.concatenate a b = Except.ok r →
      r.tag = a.tag ∧ r.concatenate_flag = a.concatenate_flag ∧ r.label = a.label ∧
      r.units = a.units ∧ r.direction = a.direction ∧ r.ensemble_mean = a.ensemble_mean) := by
  constructor
  · intro s r hr
    cases s with
    | scalar i =>
        simp only [OrdinalAxis.getitem] at hr
        split at hr
        · injection hr with h
          subst h
          exact ⟨rfl, rfl, rfl, rfl, rfl, rfl⟩
        · simp at hr
    | multi idxs =>
        simp only [OrdinalAxis.getitem] at hr
        split at hr
        · injection hr with h
          subst h
          exact ⟨rfl, rfl, rfl, rfl, rfl, rfl⟩
        · simp at hr
  · intro b r hr
    simp only [OrdinalAxis.concatenate] at hr
    split at hr
    · injection hr with h
      subst h
      exact ⟨rfl, rfl, rfl, rfl, rfl, rfl⟩
    · simp at hr

/-- Witness for C9: scalar indexing of a tilt axis at position 1. -/
theorem c9_ordinal_invariants_witness :
    ({ axT with values := [7] } : OrdinalAxis ℚ).tag = axT.tag ∧
    ({ axT with values := [7] } : OrdinalAxis ℚ).concatenate_flag = axT.concatenate_flag ∧
    ({ axT with values := [7] } : OrdinalAxis ℚ).label = axT.label ∧
    ({ axT with values := [7] } : OrdinalAxis ℚ).units = axT.units ∧
    ({ axT with values := [7] } : OrdinalAxis ℚ).direction = axT.direction ∧
    ({ axT with values := [7] } : OrdinalAxis ℚ).ensemble_mean = axT.ensemble_mean :=
  (c9_ordinal_invariants axT).1 (Selector.scalar 1) { axT with values := [7] } rfl

/-- C10: radial_binning with outer omitted takes outer = min(max_angles),
which never exceeds either max_angles component, so the
AngleOutOfRangeError branch of the _check_max_angle guard inside the
ensuing polar_binning is unreachable in this default mode (measure.py
lines 563-565, 637-639, 696-703). -/
theorem c10_radial_binning_guard (dp : DiffractionPatterns) (step inner : ℚ) :
    min dp.max_angles.1 dp.max_angles.2 ≤ dp.max_angles.1 ∧
    min dp.max_angles.1 dp.max_angles.2 ≤ dp.max_angles.2 ∧
    dp.check_max_angle (min dp.max_angles.1 dp.max_angles.2) = none ∧
    DiffractionPatterns.radial_binning dp step inner none ≠
      Except.error GuardErr.AngleOutOfRangeError := by
  have hc : dp.check_max_angle (min dp.max_angles.1 dp.max_angles.2) = none := by
    rw [DiffractionPatterns.check_max_angle, if_neg]
    rw [not_or]
    exact ⟨not_lt.mpr (min_le_left _ _), not_lt.mpr (min_le_right _ _)⟩
  refine ⟨min_le_left _ _, min_le_right _ _, hc, ?_⟩
  simp only [DiffractionPatterns.radial_binning, DiffractionPatterns.polar_binning,
    Option.getD_none, hc]
  by_cases h0 : pyInt ((min dp.max_angles.1 dp.max_angles.2 - inner) / step) = 0
  · simp [h0]
  · simp [h0]

end Abtem
